import Mathlib

/-
Verification development for the mini-player repository.

The definitions below are a shallow embedding of the Python sources:
  * src/miniplayer/ui/main_window.py   (MainWindow state and handlers)
  * src/miniplayer/core/audio_player.py (fade-out machinery)
  * src/miniplayer/core/track_manager.py (folder scanning)
  * src/miniplayer/core/config_manager.py (settings access)

Qt floats are modelled as exact rationals; Qt signal dispatch is modelled by
explicit handler application; checkbox/slider setters fire their connected
handler only when the value actually changes, as Qt does.
-/

namespace MiniPlayer

/-- QMediaPlayer.PlaybackState. -/
inductive PlaybackState where
  | Stopped
  | Playing
  | Paused
deriving DecidableEq

/-- QMediaPlayer.MediaStatus, reduced to the case the handler inspects. -/
inductive MediaStatus where
  | EndOfMedia
  | OtherStatus
deriving DecidableEq

/-- State of MainWindow (main_window.py) together with the fields of the
underlying AudioPlayer/playlist it reads and writes.  `volume` is the
audio-output gain (`audio_output.volume()`), `volume_slider` the recorded
slider value 0-100, `playbackRate` the rate last applied to the media
player.  `fileExists` abstracts `Path.exists()` for track files. -/
structure MainWindow where
  user_stopped : Bool
  ignore_auto_advance : Bool
  btn_repeat : Bool
  btn_mute : Bool
  btn_play_all : Bool
  volume_slider : ℕ
  speed_slider : ℕ
  playlist : List String
  currentRow : ℤ
  current_folder : Option String
  fileExists : String → Bool
  current_track_url : Option String
  playState : PlaybackState
  position : ℤ
  duration : ℤ
  volume : ℚ
  playbackRate : ℚ

/-- main_window.py `on_repeat_toggled`: if checked and Play All is checked,
uncheck Play All (signals blocked, so no nested handler runs). -/
def on_repeat_toggled (checked : Bool) (s : MainWindow) : MainWindow :=
  if checked && s.btn_play_all then { s with btn_play_all := false } else s

/-- main_window.py `on_play_all_toggled`: if checked and Repeat is checked,
uncheck Repeat (signals blocked). -/
def on_play_all_toggled (checked : Bool) (s : MainWindow) : MainWindow :=
  if checked && s.btn_repeat then { s with btn_repeat := false } else s

/-- `btn_repeat.setChecked b`: Qt fires the toggled handler only on change. -/
def setRepeatChecked (b : Bool) (s : MainWindow) : MainWindow :=
  if b = s.btn_repeat then s else on_repeat_toggled b { s with btn_repeat := b }

/-- `btn_play_all.setChecked b`: fires the toggled handler only on change. -/
def setPlayAllChecked (b : Bool) (s : MainWindow) : MainWindow :=
  if b = s.btn_play_all then s
  else on_play_all_toggled b { s with btn_play_all := b }

/-- main_window.py `update_volume`: reads the slider; applies the gain to the
audio output only when not muted. -/
def update_volume (s : MainWindow) : MainWindow :=
  if s.btn_mute then s else { s with volume := (s.volume_slider : ℚ) / 100 }

/-- `volume_slider.setValue v`: fires `update_volume` only on change. -/
def setVolumeSlider (v : ℕ) (s : MainWindow) : MainWindow :=
  if v = s.volume_slider then s else update_volume { s with volume_slider := v }

/-- main_window.py `toggle_mute`: checked forces gain 0; unchecked restores
the slider value as gain. -/
def toggle_mute (checked : Bool) (s : MainWindow) : MainWindow :=
  if checked then { s with volume := 0 }
  else { s with volume := (s.volume_slider : ℚ) / 100 }

/-- `btn_mute.setChecked b`: fires `toggle_mute` only on change. -/
def setMuteChecked (b : Bool) (s : MainWindow) : MainWindow :=
  if b = s.btn_mute then s else toggle_mute b { s with btn_mute := b }

/-- main_window.py `update_speed`: applies the rate to the media player only
while playing. -/
def update_speed (s : MainWindow) : MainWindow :=
  if s.playState = .Playing then
    { s with playbackRate := (s.speed_slider : ℚ) / 100 }
  else s

/-- `speed_slider.setValue v`: fires `update_speed` only on change. -/
def setSpeedSlider (v : ℕ) (s : MainWindow) : MainWindow :=
  if v = s.speed_slider then s else update_speed { s with speed_slider := v }

/-- `playlist.currentItem()`: the selected relative path, when the row is a
valid index. -/
def currentItem (s : MainWindow) : Option String :=
  if 0 ≤ s.currentRow then s.playlist[s.currentRow.toNat]? else none

/-- main_window.py `play_selected_track`: requires a selected item and an
active folder; warns and leaves state unchanged when the file is missing;
otherwise loads the track, applies the slider rate, and plays.  The
`ignore_auto_advance` flag is set so the stop transition of the previous
track is not misread as natural end.  (The claims apply this function only
in contexts where the player is already stopped, so the transient `stop()`
of a still-playing track adds no further effect here.) -/
def play_selected_track (s : MainWindow) : MainWindow :=
  match currentItem s, s.current_folder with
  | some rel, some folder =>
    let file_path := folder ++ "/" ++ rel
    if s.fileExists file_path then
      { s with
        ignore_auto_advance := true,
        current_track_url := some file_path,
        position := 0,
        playbackRate := (s.speed_slider : ℚ) / 100,
        playState := .Playing }
    else s
  | _, _ => s

/-- main_window.py `toggle_play_pause`: pause when playing; otherwise play
the selected track when nothing is loaded, else resume the media player
directly (note: the resume path does not re-apply the slider rate). -/
def toggle_play_pause (s : MainWindow) : MainWindow :=
  if s.playState = .Playing then { s with playState := .Paused }
  else if s.current_track_url = none then play_selected_track s
  else { s with playState := .Playing }

/-- main_window.py `reset_playback`: when not stopped, sets `user_stopped`
and starts the audio player's fade-out; then seeks to 0.  Note it does not
touch `ignore_auto_advance`. -/
def reset_playback (s : MainWindow) : MainWindow :=
  let s1 := if s.playState = .Stopped then s else { s with user_stopped := true }
  { s1 with position := 0 }

/-- main_window.py `handle_playback_state_changed`: on a transition to
Stopped, first consults `ignore_auto_advance`, then the repeat branch
(which also requires position = duration), then the play-all branch. -/
def handle_playback_state_changed (state : PlaybackState) (s : MainWindow) :
    MainWindow :=
  if state = .Stopped then
    if s.ignore_auto_advance then { s with ignore_auto_advance := false }
    else if s.btn_repeat && s.current_track_url.isSome
            && (s.position = s.duration : Bool) then
      { s with position := 0, playState := .Playing }
    else if s.btn_play_all then
      if s.currentRow < (s.playlist.length : ℤ) - 1 then
        play_selected_track { s with currentRow := s.currentRow + 1 }
      else s
    else s
  else s

/-- main_window.py `handle_media_status_changed`: on EndOfMedia, repeat
branch first (seek 0, play), then play-all branch (advance row and play),
else settle (UI-only resets). -/
def handle_media_status_changed (status : MediaStatus) (s : MainWindow) :
    MainWindow :=
  match status with
  | .EndOfMedia =>
    if s.btn_repeat && s.current_track_url.isSome then
      { s with position := 0, playState := .Playing }
    else if s.btn_play_all then
      if s.currentRow < (s.playlist.length : ℤ) - 1 then
        play_selected_track { s with currentRow := s.currentRow + 1 }
      else s
    else s
  | .OtherStatus => s

/-- The media player's stop (end of a fade-out) sets the playback state to
Stopped and delivers the state-changed notification to the window. -/
def stopped_transition (s : MainWindow) : MainWindow :=
  handle_playback_state_changed .Stopped { s with playState := .Stopped }

/-! Toggle-operation sequences for the repeat / play-all invariant (C1). -/

/-- A user action on one of the two mode checkboxes (click or Ctrl+R). -/
inductive ToggleOp where
  | setRep (b : Bool)
  | setPA (b : Bool)
deriving DecidableEq

def applyToggle (s : MainWindow) : ToggleOp → MainWindow
  | .setRep b => setRepeatChecked b s
  | .setPA b => setPlayAllChecked b s

def applyToggles (s : MainWindow) (ops : List ToggleOp) : MainWindow :=
  ops.foldl applyToggle s

/-- The mutual-exclusion invariant: never both repeat and play-all. -/
def mutexRP (s : MainWindow) : Prop := (s.btn_repeat && s.btn_play_all) = false

theorem setRepeatChecked_mutex (b : Bool) (s : MainWindow) (h : mutexRP s) :
    mutexRP (setRepeatChecked b s) := by
  unfold mutexRP at h ⊢
  cases b <;> cases hr : s.btn_repeat <;> cases hp : s.btn_play_all <;>
    simp_all [setRepeatChecked, on_repeat_toggled]

theorem setPlayAllChecked_mutex (b : Bool) (s : MainWindow) (h : mutexRP s) :
    mutexRP (setPlayAllChecked b s) := by
  unfold mutexRP at h ⊢
  cases b <;> cases hr : s.btn_repeat <;> cases hp : s.btn_play_all <;>
    simp_all [setPlayAllChecked, on_play_all_toggled]

theorem applyToggle_mutex (s : MainWindow) (op : ToggleOp) (h : mutexRP s) :
    mutexRP (applyToggle s op) := by
  cases op with
  | setRep b => exact setRepeatChecked_mutex b s h
  | setPA b => exact setPlayAllChecked_mutex b s h

theorem applyToggles_mutex (ops : List ToggleOp) :
    ∀ s : MainWindow, mutexRP s → mutexRP (applyToggles s ops) := by
  induction ops with
  | nil => intro s h; exact h
  | cons op ops ih =>
    intro s h
    simpa [applyToggles, List.foldl_cons] using
      ih (applyToggle s op) (applyToggle_mutex s op h)

/-- Claim C1: repeat and play-all are mutually exclusive.  From any state
satisfying the exclusion (in particular the startup state with both
unchecked), every sequence of repeat / play-all toggle operations preserves
it; moreover, from any such state, checking repeat forces play-all false
and checking play-all forces repeat false. -/
theorem C1_repeat_playall_mutually_exclusive
    (s0 : MainWindow) (h0 : (s0.btn_repeat && s0.btn_play_all) = false) :
    (∀ ops : List ToggleOp,
       ((applyToggles s0 ops).btn_repeat
         && (applyToggles s0 ops).btn_play_all) = false) ∧
    (∀ s : MainWindow, (s.btn_repeat && s.btn_play_all) = false →
       ((setRepeatChecked true s).btn_repeat = true ∧
        (setRepeatChecked true s).btn_play_all = false) ∧
       ((setPlayAllChecked true s).btn_play_all = true ∧
        (setPlayAllChecked true s).btn_repeat = false)) := by
  constructor
  · intro ops
    exact applyToggles_mutex ops s0 h0
  · intro s h
    constructor
    · cases hr : s.btn_repeat <;> cases hp : s.btn_play_all <;>
        simp_all [setRepeatChecked, on_repeat_toggled]
    · cases hr : s.btn_repeat <;> cases hp : s.btn_play_all <;>
        simp_all [setPlayAllChecked, on_play_all_toggled]

/-- A concrete startup state (both mode checkboxes unchecked). -/
def mwInit : MainWindow :=
  { user_stopped := false
    ignore_auto_advance := false
    btn_repeat := false
    btn_mute := false
    btn_play_all := false
    volume_slider := 50
    speed_slider := 100
    playlist := ["a.mp3", "b.mp3"]
    currentRow := 0
    current_folder := some "/music"
    fileExists := fun _ => true
    current_track_url := none
    playState := .Stopped
    position := 0
    duration := 0
    volume := 1/2
    playbackRate := 1 }

/-- Witness for C1 at the startup state and the sequence
[check repeat, check play-all, check repeat]. -/
theorem C1_repeat_playall_mutually_exclusive_witness :
    ((applyToggles mwInit
        [.setRep true, .setPA true, .setRep true]).btn_repeat
      && (applyToggles mwInit
        [.setRep true, .setPA true, .setRep true]).btn_play_all) = false ∧
    (setRepeatChecked true mwInit).btn_play_all = false := by
  have h := C1_repeat_playall_mutually_exclusive mwInit rfl
  exact ⟨h.1 [.setRep true, .setPA true, .setRep true],
         ((h.2 mwInit rfl).1).2⟩

/-! Volume / mute operation sequences (C2). -/

/-- A user action on the volume slider or the mute checkbox. -/
inductive VolOp where
  | setVol (v : ℕ)
  | setMute (b : Bool)
deriving DecidableEq

def applyVolOp (s : MainWindow) : VolOp → MainWindow
  | .setVol v => setVolumeSlider v s
  | .setMute b => setMuteChecked b s

def applyVolOps (s : MainWindow) (ops : List VolOp) : MainWindow :=
  ops.foldl applyVolOp s

/-- The argument of the last `setVol` in the sequence, if any. -/
def lastSetVol : List VolOp → Option ℕ
  | [] => none
  | .setVol v :: ops => some ((lastSetVol ops).getD v)
  | .setMute _ :: ops => lastSetVol ops

/-- The gain invariant: the audio-output gain is 0 while muted and the
slider value scaled to 0-1 otherwise. -/
def gainInv (s : MainWindow) : Prop :=
  s.volume = if s.btn_mute then 0 else (s.volume_slider : ℚ) / 100

theorem applyVolOp_gainInv (s : MainWindow) (op : VolOp) (h : gainInv s) :
    gainInv (applyVolOp s op) := by
  unfold gainInv at h ⊢
  cases op with
  | setVol v =>
    simp only [applyVolOp, setVolumeSlider, update_volume]
    by_cases hv : v = s.volume_slider
    · simp [hv, h]
    · cases hm : s.btn_mute <;> simp [hm] at h <;> simp [hv, hm, h]
  | setMute b =>
    simp only [applyVolOp, setMuteChecked, toggle_mute]
    by_cases hb : b = s.btn_mute
    · simp [hb, h]
    · cases b <;> simp [hb]

theorem applyVolOp_setVol_slider (s : MainWindow) (v : ℕ) :
    (applyVolOp s (.setVol v)).volume_slider = v := by
  simp only [applyVolOp, setVolumeSlider, update_volume]
  by_cases hv : v = s.volume_slider
  · simp [hv]
  · cases hm : s.btn_mute <;> simp [hv, hm]

theorem applyVolOp_setMute_slider (s : MainWindow) (b : Bool) :
    (applyVolOp s (.setMute b)).volume_slider = s.volume_slider := by
  simp only [applyVolOp, setMuteChecked, toggle_mute]
  by_cases hb : b = s.btn_mute
  · simp [hb]
  · cases b <;> simp [hb]

theorem applyVolOps_gainInv (ops : List VolOp) :
    ∀ s : MainWindow, gainInv s → gainInv (applyVolOps s ops) := by
  induction ops with
  | nil => intro s h; exact h
  | cons op ops ih =>
    intro s h
    simpa [applyVolOps, List.foldl_cons] using
      ih (applyVolOp s op) (applyVolOp_gainInv s op h)

theorem applyVolOps_slider (ops : List VolOp) :
    ∀ s : MainWindow,
      (∀ v, lastSetVol ops = some v → (applyVolOps s ops).volume_slider = v) ∧
      (lastSetVol ops = none →
        (applyVolOps s ops).volume_slider = s.volume_slider) := by
  induction ops with
  | nil => intro s; exact ⟨fun v hv => Option.noConfusion hv, fun _ => rfl⟩
  | cons op ops ih =>
    intro s
    cases op with
    | setVol w =>
      refine ⟨fun v hv => ?_, fun hnone => ?_⟩
      · have hstep : applyVolOps s (.setVol w :: ops)
            = applyVolOps (applyVolOp s (.setVol w)) ops := rfl
        rw [hstep]
        cases hrest : lastSetVol ops with
        | none =>
          have hv' : v = w := by
            simp [lastSetVol, hrest] at hv
            exact hv.symm
          rw [(ih (applyVolOp s (.setVol w))).2 hrest,
              applyVolOp_setVol_slider, hv']
        | some u =>
          have hv' : v = u := by
            simp [lastSetVol, hrest] at hv
            exact hv.symm
          rw [(ih (applyVolOp s (.setVol w))).1 u hrest, hv']
      · exact absurd hnone (by simp [lastSetVol])
    | setMute b =>
      refine ⟨fun v hv => ?_, fun hnone => ?_⟩
      · have hv' : lastSetVol ops = some v := by simpa [lastSetVol] using hv
        exact (ih (applyVolOp s (.setMute b))).1 v hv'
      · have hn : lastSetVol ops = none := by simpa [lastSetVol] using hnone
        have hstep : applyVolOps s (.setMute b :: ops)
            = applyVolOps (applyVolOp s (.setMute b)) ops := rfl
        rw [hstep, (ih (applyVolOp s (.setMute b))).2 hn,
            applyVolOp_setMute_slider]

/-- Claim C2: for every sequence of volume / mute operations from a state
satisfying the gain invariant, the recorded (slider) volume equals the
argument of the last volume change regardless of intervening mute toggles,
the output gain is 0 whenever mute is on, and equals the recorded volume
(scaled to 0-1) whenever mute is off. -/
theorem C2_volume_mute_sequences
    (s0 : MainWindow)
    (hinv : s0.volume = if s0.btn_mute then 0 else (s0.volume_slider : ℚ) / 100)
    (ops : List VolOp) :
    ((applyVolOps s0 ops).btn_mute = true → (applyVolOps s0 ops).volume = 0) ∧
    ((applyVolOps s0 ops).btn_mute = false →
      (applyVolOps s0 ops).volume
        = ((applyVolOps s0 ops).volume_slider : ℚ) / 100) ∧
    (∀ v, lastSetVol ops = some v → (applyVolOps s0 ops).volume_slider = v) ∧
    (lastSetVol ops = none →
      (applyVolOps s0 ops).volume_slider = s0.volume_slider) := by
  have hg := applyVolOps_gainInv ops s0 hinv
  unfold gainInv at hg
  refine ⟨fun hm => ?_, fun hm => ?_, (applyVolOps_slider ops s0).1,
          (applyVolOps_slider ops s0).2⟩
  · rw [hg, hm]; rfl
  · rw [hg, hm]; rfl

/-- Witness for C2 at the startup state and the sequence
[volume 30, mute on, mute off]. -/
theorem C2_volume_mute_sequences_witness :
    ((applyVolOps mwInit [.setVol 30, .setMute true, .setMute false]).btn_mute
        = false →
      (applyVolOps mwInit [.setVol 30, .setMute true, .setMute false]).volume
        = ((applyVolOps mwInit
            [.setVol 30, .setMute true, .setMute false]).volume_slider : ℚ)
            / 100) ∧
    (∀ v, lastSetVol [.setVol 30, .setMute true, .setMute false] = some v →
      (applyVolOps mwInit
        [.setVol 30, .setMute true, .setMute false]).volume_slider = v) := by
  have h := C2_volume_mute_sequences mwInit (by norm_num [mwInit])
    [.setVol 30, .setMute true, .setMute false]
  exact ⟨h.2.1, h.2.2.1⟩

/-! End-of-media handling: play-all advance (C3), repeat restart (C4),
and the user-stop / auto-advance interaction (C6). -/

/-- Claim C3: with play-all enabled (repeat false), handling EndOfMedia at
selection index i over an N-track catalog advances to i+1 and loads and
plays that track when i < N-1, and performs no change (settling Stopped)
when i = N-1. -/
theorem C3_playall_advances_and_settles
    (s : MainWindow) (f : String) (i : ℤ)
    (hpa : s.btn_play_all = true) (hrep : s.btn_repeat = false)
    (hstop : s.playState = .Stopped)
    (hfolder : s.current_folder = some f)
    (hfiles : ∀ p, s.fileExists p = true)
    (hi0 : 0 ≤ i) (hrow : s.currentRow = i)
    (hiN : i < (s.playlist.length : ℤ)) :
    (i < (s.playlist.length : ℤ) - 1 →
      (handle_media_status_changed .EndOfMedia s).currentRow = i + 1 ∧
      (handle_media_status_changed .EndOfMedia s).playState = .Playing ∧
      ∃ t, s.playlist[(i + 1).toNat]? = some t ∧
        (handle_media_status_changed .EndOfMedia s).current_track_url
          = some (f ++ "/" ++ t)) ∧
    (i = (s.playlist.length : ℤ) - 1 →
      handle_media_status_changed .EndOfMedia s = s ∧
      (handle_media_status_changed .EndOfMedia s).playState = .Stopped) := by
  constructor
  · intro hlt
    have hcond : s.currentRow < (s.playlist.length : ℤ) - 1 := by
      rw [hrow]; exact hlt
    have hlen : (i + 1).toNat < s.playlist.length := by omega
    have hget : s.playlist[(i + 1).toNat]? = some (s.playlist[(i + 1).toNat]) :=
      List.getElem?_eq_getElem hlen
    have hci : currentItem { s with currentRow := s.currentRow + 1 }
        = some (s.playlist[(i + 1).toNat]) := by
      have h01 : (0 : ℤ) ≤ i + 1 := by omega
      simp [currentItem, hrow, h01, hget]
    have h1 : handle_media_status_changed .EndOfMedia s
        = play_selected_track { s with currentRow := s.currentRow + 1 } := by
      simp [handle_media_status_changed, hrep, hpa, hcond]
    have hpath : s.fileExists (f ++ "/" ++ s.playlist[(i + 1).toNat]) = true :=
      hfiles _
    have h2 : play_selected_track { s with currentRow := s.currentRow + 1 }
        = { s with
            currentRow := s.currentRow + 1
            ignore_auto_advance := true
            current_track_url := some (f ++ "/" ++ s.playlist[(i + 1).toNat])
            position := 0
            playbackRate := (s.speed_slider : ℚ) / 100
            playState := .Playing } := by
      simp only [play_selected_track]
      rw [hci]
      simp [hfolder, hpath]
    rw [h1, h2]
    exact ⟨by simp [hrow], rfl, s.playlist[(i + 1).toNat], hget, rfl⟩
  · intro heq
    have hncond : ¬ s.currentRow < (s.playlist.length : ℤ) - 1 := by
      rw [hrow, heq]; exact lt_irrefl _
    have h1 : handle_media_status_changed .EndOfMedia s = s := by
      simp [handle_media_status_changed, hrep, hpa, hncond]
    exact ⟨h1, by rw [h1]; exact hstop⟩

/-- A state with play-all on, track 0 of 2 loaded, at end of media. -/
def mw3 : MainWindow :=
  { mwInit with
    btn_play_all := true
    current_track_url := some "/music/a.mp3"
    playState := .Stopped
    position := 180000
    duration := 180000 }

/-- Witness for C3: at index 0 of a 2-track catalog, EndOfMedia advances to
index 1 and plays the second track. -/
theorem C3_playall_advances_and_settles_witness :
    (handle_media_status_changed .EndOfMedia mw3).currentRow = 0 + 1 ∧
    (handle_media_status_changed .EndOfMedia mw3).playState = .Playing ∧
    ∃ t, mw3.playlist[((0 : ℤ) + 1).toNat]? = some t ∧
      (handle_media_status_changed .EndOfMedia mw3).current_track_url
        = some ("/music" ++ "/" ++ t) :=
  (C3_playall_advances_and_settles mw3 "/music" 0 rfl rfl rfl rfl
    (fun _ => rfl) (by decide) rfl (by decide)).1 (by decide)

/-- A state with both repeat and play-all checked and a loaded track,
exercising the precedence of the repeat branch. -/
def mw4 : MainWindow :=
  { mwInit with
    btn_repeat := true
    btn_play_all := true
    current_track_url := some "/music/a.mp3"
    playState := .Stopped
    position := 180000
    duration := 180000 }

/-- Claim C4: with repeat enabled and a track loaded, EndOfMedia seeks the
same track to 0 and resumes Playing; everything else (selection, loaded
track) is unchanged, and no hypothesis on play-all is needed — the repeat
branch is tested first, so it wins for either value of play-all. -/
theorem C4_repeat_restarts_track (s : MainWindow) (u : String)
    (hrep : s.btn_repeat = true) (hurl : s.current_track_url = some u) :
    handle_media_status_changed .EndOfMedia s
      = { s with position := 0, playState := .Playing } := by
  simp [handle_media_status_changed, hrep, hurl]

/-- Witness for C4 at a state where play-all is also (anomalously) true:
the repeat branch still wins. -/
theorem C4_repeat_restarts_track_witness :
    handle_media_status_changed .EndOfMedia mw4
      = { mw4 with position := 0, playState := .Playing } :=
  C4_repeat_restarts_track mw4 "/music/a.mp3" rfl rfl

/-- A playing state with play-all enabled and a next track available, just
before the user presses the stop (reset) button. -/
def mw6 : MainWindow :=
  { mwInit with
    btn_play_all := true
    current_track_url := some "/music/a.mp3"
    playState := .Playing
    position := 60000
    duration := 180000 }

/-- Claim C6 (code bug): `reset_playback` sets `user_stopped` — which no
handler ever reads — instead of `ignore_auto_advance`, which is the flag
the Stopped-transition handler consults.  Consequently a user-initiated
stop with play-all enabled and a next track available auto-advances to and
plays the next track, contradicting the claimed suppression. -/
theorem C6_user_stop_still_auto_advances :
    (reset_playback mw6).user_stopped = true ∧
    (reset_playback mw6).ignore_auto_advance = false ∧
    (stopped_transition (reset_playback mw6)).currentRow = 1 ∧
    (stopped_transition (reset_playback mw6)).playState = .Playing ∧
    (stopped_transition (reset_playback mw6)).current_track_url
      = some "/music/b.mp3" := by
  refine ⟨rfl, rfl, ?_, ?_, ?_⟩ <;> rfl

/-! Fade-out machinery of audio_player.py (C5).  Gains are exact rationals;
each timer tick of the running fade timer applies `fade_step` once. -/

/-- State of the AudioPlayer relevant to the fade: the audio-output gain,
the captured pre-fade gain, whether the fade timer is running, and the
media player's playback state. -/
structure AudioPlayer where
  volume : ℚ
  original_volume : ℚ
  fadeActive : Bool
  playState : PlaybackState
deriving DecidableEq

/-- audio_player.py fade constants: 500 ms total, 10 steps. -/
def fade_steps : ℕ := 10

/-- audio_player.py `fade_out`: no-op when stopped, otherwise captures the
current gain and starts the fade timer. -/
def fade_out (s : AudioPlayer) : AudioPlayer :=
  if s.playState = .Stopped then s
  else { s with original_volume := s.volume, fadeActive := true }

/-- A command issued to the audio service during a fade step. -/
inductive AudioCmd where
  | setVolume (v : ℚ)
  | stopCmd
deriving DecidableEq

/-- audio_player.py `_fade_step` (one fade-timer tick): while the current
gain exceeds one step, lower it by a step; otherwise stop the timer, force
the gain to 0, stop the media player, and restore the captured gain.  The
second component records the commands sent to the audio service.  A tick
with the timer inactive does nothing. -/
def fade_step (s : AudioPlayer) : AudioPlayer × List AudioCmd :=
  if s.fadeActive then
    let step_size := s.original_volume / (fade_steps : ℚ)
    if s.volume > step_size then
      let new_volume := max 0 (s.volume - step_size)
      ({ s with volume := new_volume }, [.setVolume new_volume])
    else
      ({ s with
          fadeActive := false
          volume := s.original_volume
          playState := .Stopped },
       [.setVolume 0, .stopCmd, .setVolume s.original_volume])
  else (s, [])

/-- The state after one fade-timer tick. -/
def fade_step_state (s : AudioPlayer) : AudioPlayer := (fade_step s).1

theorem fade_iter (v0 : ℚ) (hv : 0 < v0) (s : AudioPlayer)
    (ha : s.fadeActive = true) (ho : s.original_volume = v0)
    (hvol : s.volume = v0) :
    ∀ k : ℕ, k ≤ 9 →
      (fade_step_state^[k] s).fadeActive = true ∧
      (fade_step_state^[k] s).original_volume = v0 ∧
      (fade_step_state^[k] s).volume = v0 * (10 - (k : ℚ)) / 10 ∧
      (fade_step_state^[k] s).playState = s.playState := by
  intro k
  induction k with
  | zero =>
    intro _
    refine ⟨ha, ho, ?_, rfl⟩
    show s.volume = v0 * (10 - ((0 : ℕ) : ℚ)) / 10
    rw [hvol]; push_cast; ring
  | succ k ih =>
    intro hk9
    have hk8 : k ≤ 8 := by omega
    obtain ⟨ih1, ih2, ih3, ih4⟩ := ih (by omega)
    have hkQ : (k : ℚ) ≤ 8 := by exact_mod_cast hk8
    have hgt : (fade_step_state^[k] s).original_volume / (fade_steps : ℚ)
        < (fade_step_state^[k] s).volume := by
      rw [ih2, ih3]
      unfold fade_steps
      push_cast
      nlinarith [mul_pos hv (show (0 : ℚ) < (10 - (k : ℚ)) - 1 by linarith)]
    have hnn : (0 : ℚ) ≤ (fade_step_state^[k] s).volume
        - (fade_step_state^[k] s).original_volume / (fade_steps : ℚ) := by
      linarith
    have hstep : fade_step_state^[k + 1] s
        = { fade_step_state^[k] s with
            volume := (fade_step_state^[k] s).volume
              - (fade_step_state^[k] s).original_volume / (fade_steps : ℚ) } := by
      rw [Function.iterate_succ_apply']
      simp [fade_step_state, fade_step, ih1, hgt, max_eq_right hnn]
    refine ⟨?_, ?_, ?_, ?_⟩
    · rw [hstep]; exact ih1
    · rw [hstep]; exact ih2
    · rw [hstep]
      show (fade_step_state^[k] s).volume
          - (fade_step_state^[k] s).original_volume / (fade_steps : ℚ)
          = v0 * (10 - ((k + 1 : ℕ) : ℚ)) / 10
      rw [ih2, ih3]
      unfold fade_steps
      push_cast
      ring
    · rw [hstep]; exact ih4

/-- Claim C5 (amended: the exactly-10-steps part holds for every positive
starting gain; a zero starting gain terminates on the first tick instead):
`fade_out` is a no-op when already Stopped; otherwise it captures the
current gain v0 as baseline, the fade is still running after 9 ticks, and
the 10th tick stops the timer by forcing the gain to 0, issuing stop, and
restoring the gain to v0, leaving the player Stopped; further ticks change
nothing. -/
theorem C5_fade_out_ten_steps (s : AudioPlayer) (v0 : ℚ)
    (hns : s.playState ≠ .Stopped) (hvol : s.volume = v0) (hv : 0 < v0) :
    (∀ t : AudioPlayer, t.playState = .Stopped → fade_out t = t) ∧
    (fade_out s).original_volume = v0 ∧
    (fade_step_state^[9] (fade_out s)).fadeActive = true ∧
    (fade_step (fade_step_state^[9] (fade_out s))).2
      = [.setVolume 0, .stopCmd, .setVolume v0] ∧
    (fade_step_state^[10] (fade_out s)).fadeActive = false ∧
    (fade_step_state^[10] (fade_out s)).volume = v0 ∧
    (fade_step_state^[10] (fade_out s)).playState = .Stopped ∧
    fade_step_state (fade_step_state^[10] (fade_out s))
      = fade_step_state^[10] (fade_out s) := by
  have hfo : fade_out s
      = { s with original_volume := s.volume, fadeActive := true } := by
    simp [fade_out, hns]
  have h9 := fade_iter v0 hv (fade_out s)
    (by rw [hfo]) (by rw [hfo]; exact hvol) (by rw [hfo]; exact hvol)
    9 (le_refl 9)
  obtain ⟨h9a, h9o, h9v, h9p⟩ := h9
  have hle : ¬ (fade_step_state^[9] (fade_out s)).original_volume
      / (fade_steps : ℚ) < (fade_step_state^[9] (fade_out s)).volume := by
    rw [h9o, h9v]
    unfold fade_steps
    push_cast
    have heq : v0 * (10 - (9 : ℚ)) / 10 = v0 / 10 := by ring
    rw [heq]
    exact lt_irrefl _
  have hfinal : fade_step (fade_step_state^[9] (fade_out s))
      = ({ fade_step_state^[9] (fade_out s) with
            fadeActive := false
            volume := v0
            playState := .Stopped },
         [.setVolume 0, .stopCmd, .setVolume v0]) := by
    generalize hgen : fade_step_state^[9] (fade_out s) = t at h9a h9o hle ⊢
    rw [h9o] at hle
    simp [fade_step, h9a, hle, h9o]
  have h10 : fade_step_state^[10] (fade_out s)
      = { fade_step_state^[9] (fade_out s) with
            fadeActive := false
            volume := v0
            playState := .Stopped } := by
    rw [Function.iterate_succ_apply']
    show (fade_step (fade_step_state^[9] (fade_out s))).1 = _
    rw [hfinal]
  refine ⟨fun t ht => by simp [fade_out, ht], by rw [hfo]; exact hvol, h9a,
    ?_, ?_, ?_, ?_, ?_⟩
  · rw [hfinal]
  · rw [h10]
  · rw [h10]
  · rw [h10]
  · rw [h10]
    simp [fade_step_state, fade_step]

/-- A playing state with gain 1/2 and a stale captured baseline. -/
def ap5 : AudioPlayer :=
  { volume := 1/2
    original_volume := 1
    fadeActive := false
    playState := .Playing }

/-- Witness for C5 (amended) at a concrete playing state with gain 1/2. -/
theorem C5_fade_out_ten_steps_witness :
    (fade_step_state^[9] (fade_out ap5)).fadeActive = true ∧
    (fade_step (fade_step_state^[9] (fade_out ap5))).2
      = [.setVolume 0, .stopCmd, .setVolume (1/2)] ∧
    (fade_step_state^[10] (fade_out ap5)).fadeActive = false ∧
    (fade_step_state^[10] (fade_out ap5)).volume = 1/2 ∧
    (fade_step_state^[10] (fade_out ap5)).playState = .Stopped := by
  have h := C5_fade_out_ten_steps ap5 (1/2) (by decide) rfl (by norm_num)
  exact ⟨h.2.2.1, h.2.2.2.1, h.2.2.2.2.1, h.2.2.2.2.2.1, h.2.2.2.2.2.2.1⟩

/-- A playing state whose gain is already 0 (for example muted). -/
def ap0 : AudioPlayer :=
  { volume := 0
    original_volume := 1
    fadeActive := false
    playState := .Playing }

/-- Counterexample to C5 as stated: starting a fade at gain 0 (reachable:
muted or volume slider at 0 while playing) terminates on the very first
tick, not after 10 — the first tick already stops the timer and the
player. -/
theorem C5_zero_gain_counterexample :
    ap0.playState ≠ .Stopped ∧
    (fade_out ap0).fadeActive = true ∧
    (fade_step_state (fade_out ap0)).fadeActive = false ∧
    (fade_step_state (fade_out ap0)).playState = .Stopped := by
  refine ⟨by decide, ?_, ?_, ?_⟩ <;>
    simp [fade_out, ap0, fade_step_state, fade_step, fade_steps]

/-! track_manager.py: folder scanning (C7) and set_folder (C10).  The
filesystem walk is abstracted as the traversal-ordered list of file paths
(relative to the folder) that os.walk would yield. -/

structure TrackManager where
  supported_extensions : List String
  current_folder : Option String
  track_list : List String
deriving DecidableEq

/-- Python `str.lower()` (the file names involved are ASCII). -/
def pyLower (s : String) : String := ⟨s.data.map Char.toLower⟩

/-- Python `str.endswith(suffix)`. -/
def pyEndsWith (s suffix : String) : Bool := suffix.data.isSuffixOf s.data

/-- Python `file.lower().endswith(supported_extensions)`: the lowercased
name ends with one of the extensions. -/
def hasSupportedExt (exts : List String) (file : String) : Bool :=
  exts.any (fun e => pyEndsWith (pyLower file) e)

/-- The scan loop of track_manager.py `scan_folder`: appends every
matching file and invokes the progress callback, whose return value the
source discards (the `let _`), so the walk never aborts. -/
def scanLoop (exts : List String) (callback : Option (ℕ → ℕ → Bool))
    (total : ℕ) : List String → ℕ → List String
  | [], _ => []
  | f :: fs, found =>
    if hasSupportedExt exts f then
      let _ := callback.map (fun cb => cb (found + 1) total)
      f :: scanLoop exts callback total fs (found + 1)
    else scanLoop exts callback total fs found

/-- track_manager.py `scan_folder`: with no active folder returns [];
otherwise pre-counts matching files, walks them invoking the callback,
stores the result in `track_list`, and returns it. -/
def scan_folder (walkFn : String → List String)
    (callback : Option (ℕ → ℕ → Bool)) (tm : TrackManager) :
    TrackManager × List String :=
  match tm.current_folder with
  | none => (tm, [])
  | some folder =>
    let walk := walkFn folder
    let total_files :=
      (walk.filter (fun f => hasSupportedExt tm.supported_extensions f)).length
    let result := scanLoop tm.supported_extensions callback total_files walk 0
    ({ tm with track_list := result }, result)

/-- The filesystem as seen by set_folder / scan_folder. -/
structure FileSystem where
  pathExists : String → Bool
  isDir : String → Bool
  walk : String → List String

/-- track_manager.py `set_folder`: rejects a path that does not exist or
is not a directory, returning False with nothing mutated; otherwise
replaces the folder and rescans. -/
def set_folder (fs : FileSystem) (folder_path : String) (tm : TrackManager) :
    TrackManager × Bool :=
  if !fs.pathExists folder_path || !fs.isDir folder_path then (tm, false)
  else
    let tm1 := { tm with current_folder := some folder_path }
    ((scan_folder fs.walk none tm1).1, true)

theorem scanLoop_ignores_callback (exts : List String)
    (cb : Option (ℕ → ℕ → Bool)) (total : ℕ) :
    ∀ (walk : List String) (found : ℕ),
      scanLoop exts cb total walk found
        = walk.filter (fun f => hasSupportedExt exts f) := by
  intro walk
  induction walk with
  | nil => intro found; rfl
  | cons f fs ih =>
    intro found
    by_cases h : hasSupportedExt exts f
    · simp [scanLoop, h, List.filter_cons, ih]
    · simp [scanLoop, h, List.filter_cons, ih]

/-- The default TrackManager with an active folder of two files. -/
def tm7 : TrackManager :=
  { supported_extensions := [".mp3", ".flac", ".wav", ".ogg"]
    current_folder := some "/music"
    track_list := [] }

/-- Claim C7 (code bug): `scan_folder` calls the progress callback but
discards its return value — populate_playlist's callback returns False to
request cancellation, yet the walk never aborts.  For every callback,
including one cancelling from the very first file, the catalog ends up
with every matching file, not the files scanned up to the abort point. -/
theorem C7_scan_cancellation_ignored :
    (∀ cb : ℕ → ℕ → Bool,
      (scan_folder (fun _ => ["a.mp3", "b.mp3"]) (some cb) tm7).1.track_list
        = ["a.mp3", "b.mp3"]) ∧
    (scan_folder (fun _ => ["a.mp3", "b.mp3"])
        (some (fun _ _ => false)) tm7).1.track_list = ["a.mp3", "b.mp3"] ∧
    (["a.mp3", "b.mp3"] : List String) ≠ ["a.mp3"] := by
  refine ⟨fun cb => ?_, ?_, by decide⟩
  · show (scanLoop tm7.supported_extensions (some cb) _ ["a.mp3", "b.mp3"] 0)
        = ["a.mp3", "b.mp3"]
    rw [scanLoop_ignores_callback]
    decide
  · show (scanLoop tm7.supported_extensions (some (fun _ _ => false)) _
        ["a.mp3", "b.mp3"] 0) = ["a.mp3", "b.mp3"]
    rw [scanLoop_ignores_callback]
    decide

/-- Claim C10: `set_folder` on a path that does not exist or is not a
directory returns False and leaves the TrackManager (current folder and
track list) exactly unchanged. -/
theorem C10_set_folder_atomic_on_failure (fs : FileSystem) (p : String)
    (tm : TrackManager)
    (h : fs.pathExists p = false ∨ fs.isDir p = false) :
    set_folder fs p tm = (tm, false) := by
  rcases h with h | h <;> simp [set_folder, h]

/-- A filesystem on which no path exists. -/
def fsEmpty : FileSystem :=
  { pathExists := fun _ => false
    isDir := fun _ => false
    walk := fun _ => [] }

/-- Witness for C10 at a concrete missing path. -/
theorem C10_set_folder_atomic_on_failure_witness :
    set_folder fsEmpty "/nonexistent" tm7 = (tm7, false) ∧
    fsEmpty.pathExists "/nonexistent" = false :=
  ⟨C10_set_folder_atomic_on_failure fsEmpty "/nonexistent" tm7 (Or.inl rfl),
   rfl⟩

/-! Playback-rate handling (C8). -/

/-- A paused state whose media player still runs at rate 1 while the user
is about to move the speed slider. -/
def mw8 : MainWindow :=
  { mwInit with
    current_track_url := some "/music/a.mp3"
    playState := .Paused
    position := 60000
    duration := 180000 }

/-- Counterexample to C8 as stated: with a track loaded and Paused, moving
the speed slider to 150 and then pressing play (resume) leaves the media
player at rate 1, not at the last rate set (1.50). -/
theorem C8_resume_skips_rate_counterexample :
    (setSpeedSlider 150 mw8).speed_slider = 150 ∧
    (setSpeedSlider 150 mw8).playbackRate = 1 ∧
    (toggle_play_pause (setSpeedSlider 150 mw8)).playState = .Playing ∧
    (toggle_play_pause (setSpeedSlider 150 mw8)).playbackRate = 1 ∧
    (1 : ℚ) ≠ (150 : ℚ) / 100 := by
  refine ⟨rfl, ?_, ?_, ?_, by norm_num⟩ <;>
    simp [setSpeedSlider, update_speed, toggle_play_pause, mw8, mwInit]

/-- Claim C8 (amended: a rate set while Paused or Stopped is remembered and
applied on the next play of a selected track; a plain resume from pause
does not re-apply it): the slider rate is applied to the media player
immediately iff Playing; otherwise the rate is only remembered;
`play_selected_track` applies the remembered rate; resuming from pause via
the play/pause button leaves the media-player rate unchanged. -/
theorem C8_rate_applied_only_when_playing
    (s : MainWindow) (v : ℕ) (rel f : String) :
    (s.playState = .Playing →
      (update_speed s).playbackRate = (s.speed_slider : ℚ) / 100) ∧
    (s.playState ≠ .Playing →
      (setSpeedSlider v s).playbackRate = s.playbackRate ∧
      (setSpeedSlider v s).speed_slider = v) ∧
    (currentItem s = some rel → s.current_folder = some f →
      s.fileExists (f ++ "/" ++ rel) = true →
      (play_selected_track s).playbackRate = (s.speed_slider : ℚ) / 100) ∧
    (s.playState = .Paused → s.current_track_url.isSome = true →
      (toggle_play_pause s).playState = .Playing ∧
      (toggle_play_pause s).playbackRate = s.playbackRate) := by
  refine ⟨fun hp => ?_, fun hnp => ⟨?_, ?_⟩, fun hci hf hfe => ?_,
    fun hp hurl => ?_⟩
  · simp [update_speed, hp]
  · by_cases hv : v = s.speed_slider
    · simp [setSpeedSlider, hv]
    · simp [setSpeedSlider, hv, update_speed, hnp]
  · by_cases hv : v = s.speed_slider
    · simp [setSpeedSlider, hv]
    · simp [setSpeedSlider, hv, update_speed, hnp]
  · simp only [play_selected_track]
    rw [hci]
    simp [hf, hfe]
  · have hnp : ¬ s.playState = .Playing := by rw [hp]; decide
    have hurl' : ¬ s.current_track_url = none := by
      intro hn; rw [hn] at hurl; cases hurl
    constructor <;> simp [toggle_play_pause, hnp, hurl']

/-- Witness for C8 (amended) at concrete paused and playing states. -/
theorem C8_rate_applied_only_when_playing_witness :
    (update_speed { mw8 with playState := .Playing }).playbackRate
      = ({ mw8 with playState := .Playing }.speed_slider : ℚ) / 100 ∧
    (setSpeedSlider 150 mw8).playbackRate = mw8.playbackRate ∧
    (play_selected_track mw8).playbackRate = (mw8.speed_slider : ℚ) / 100 ∧
    (toggle_play_pause mw8).playbackRate = mw8.playbackRate := by
  refine ⟨?_, ?_, ?_, ?_⟩
  · exact (C8_rate_applied_only_when_playing
      { mw8 with playState := .Playing } 150 "a.mp3" "/music").1 rfl
  · exact ((C8_rate_applied_only_when_playing mw8 150 "a.mp3" "/music").2.1
      (by decide)).1
  · exact (C8_rate_applied_only_when_playing mw8 150 "a.mp3" "/music").2.2.1
      rfl rfl rfl
  · exact ((C8_rate_applied_only_when_playing mw8 150 "a.mp3" "/music").2.2.2
      rfl rfl).2

/-! config_manager.py: lenient settings parsing (C9). -/

/-- The Settings section of the ConfigManager: whether the section exists
and its key/value pairs. -/
structure ConfigManager where
  hasSection : Bool
  section_values : List (String × String)
deriving DecidableEq

/-- config_manager.py `get`: None (the fallback is supplied by the typed
getters) when the section is missing or the key is absent. -/
def ConfigManager.get (cm : ConfigManager) (key : String) : Option String :=
  if cm.hasSection then cm.section_values.lookup key else none

/-- ASCII whitespace stripped by Python `int()`. -/
def pyIsSpace (c : Char) : Bool :=
  c = ' ' || c = '\t' || c = '\n' || c = '\r'

/-- Python `int(str)`: optional surrounding whitespace, an optional sign,
then one or more ASCII digits (digit-group underscores are not modelled;
no claim depends on them). -/
def parseInt (s : String) : Option ℤ :=
  let stripped := ((s.data.dropWhile pyIsSpace).reverse.dropWhile
    pyIsSpace).reverse
  let neg : Bool := stripped.head? == some '-'
  let core := match stripped with
    | '-' :: rest => rest
    | '+' :: rest => rest
    | other => other
  if core.length > 0 && core.all Char.isDigit then
    let n : ℕ := core.foldl (fun acc c => acc * 10 + (c.toNat - 48)) 0
    some (if neg then -(n : ℤ) else (n : ℤ))
  else none

/-- config_manager.py `get_int`: `int()` of the stored value, with the
`except` clause returning the caller's fallback; a missing key yields
`int(fallback)` = fallback. -/
def get_int (cm : ConfigManager) (key : String) (fallback : ℤ) : ℤ :=
  match cm.get key with
  | some stored => (parseInt stored).getD fallback
  | none => fallback

/-- Python `str(bool)`: the capitalised literals. -/
def pyStrBool (b : Bool) : String := if b then "True" else "False"

/-- config_manager.py `get_bool`: lowercases the stored value (or
`str(fallback)` when the key is absent) and tests membership in the
accepted true-literals; everything else maps to False. -/
def get_bool (cm : ConfigManager) (key : String) (fallback : Bool) : Bool :=
  let value := (cm.get key).getD (pyStrBool fallback)
  ["true", "yes", "1", "on"].contains (pyLower value)

/-- A config whose `repeat` key holds an unparsable value. -/
def cm9 : ConfigManager :=
  { hasSection := true
    section_values := [("repeat", "banana")] }

/-- Counterexample to C9 as stated: for the stored value "banana" (not a
boolean literal) and caller fallback true, `get_bool` returns false — the
fixed value false, not the fallback. -/
theorem C9_get_bool_ignores_fallback_counterexample :
    cm9.get "repeat" = some "banana" ∧
    get_bool cm9 "repeat" true = false ∧
    (false : Bool) ≠ true := by
  refine ⟨rfl, by rfl, by decide⟩

/-- Claim C9 (amended: `get_int` falls back on unparsable values and both
getters never raise, but `get_bool` maps any stored string outside the
accepted true-literals to false regardless of the fallback, honouring the
fallback only when the key is absent). -/
theorem C9_lenient_parsing
    (cm : ConfigManager) (key : String) (fbi : ℤ) (fbb : Bool) (stored : String) :
    (cm.get key = some stored → parseInt stored = none →
      get_int cm key fbi = fbi) ∧
    (cm.get key = none → get_int cm key fbi = fbi) ∧
    (cm.get key = some stored →
      (["true", "yes", "1", "on"].contains (pyLower stored)) = false →
      get_bool cm key fbb = false) ∧
    (cm.get key = none → get_bool cm key fbb = fbb) := by
  refine ⟨fun hs hp => ?_, fun hn => ?_, fun hs hmem => ?_, fun hn => ?_⟩
  · simp [get_int, hs, hp]
  · simp [get_int, hn]
  · simp only [get_bool, hs, Option.getD_some]
    exact hmem
  · cases fbb <;> simp [get_bool, hn, pyStrBool, pyLower]

/-- Witness for C9 (amended) at the "banana" config and a missing key. -/
theorem C9_lenient_parsing_witness :
    get_int cm9 "repeat" 7 = 7 ∧
    get_bool cm9 "repeat" true = false ∧
    get_bool cm9 "volume" true = true := by
  refine ⟨?_, ?_, ?_⟩
  · exact (C9_lenient_parsing cm9 "repeat" 7 true "banana").1 rfl (by rfl)
  · exact (C9_lenient_parsing cm9 "repeat" 7 true "banana").2.2.1 rfl (by rfl)
  · exact (C9_lenient_parsing cm9 "volume" 7 true "banana").2.2.2 (by rfl)

end MiniPlayer
